import Mathlib

/-!
Shallow embedding of `src/applications.py`: the `FastAPI` subclass of the
Starlette application class, with its methods `__init__`, `openapi`,
`add_api_route` and `include_router`, followed by theorems settling the
specification claims about them.

Python objects that only pass through this code are kept abstract as `Nat`
identifiers; mutation of `self.routes` and of route objects is made explicit
by returning the updated state.
-/

/-- An endpoint handler function, opaque to this code; kept abstract. -/
abbrev Endpoint := Nat

/-- A response-model annotation, opaque to this code; kept abstract. -/
abbrev ResponseModel := Nat

/-- Extra keyword arguments (`**kwargs` / `**extra`), kept abstract as a
key-value list. -/
abbrev Kwargs := List (String × Nat)

/-- A middleware entry, opaque to this code; kept abstract. -/
abbrev Middleware := Nat

/-- The exception-handlers dictionary, kept abstract as a key-value list. -/
abbrev ExceptionHandlers := List (Nat × Nat)

/-- A startup or shutdown event handler, kept abstract. -/
abbrev Handler := Nat

/-- A lifespan context function, kept abstract. -/
abbrev Lifespan := Nat

/-- Modelled from the spec: `fastapi.routing.APIRoute` is imported by
`src/applications.py` but its defining module is not under `src/`. Following
the spec's description of route registration it is a route record storing the
constructor arguments, whose `path` field can be reassigned. -/
structure APIRoute where
  path : String
  endpoint : Endpoint
  methods : List String
  response_model : Option ResponseModel
  kwargs : Kwargs
deriving DecidableEq

/-- A Starlette `BaseRoute`: either an `APIRoute` or some other kind of route,
kept abstract, which this code never inspects beyond the `isinstance` test. -/
inductive BaseRoute where
  | api (r : APIRoute)
  | other (d : Nat)
deriving DecidableEq

/-- The application state: the routes list together with the remaining state
the Starlette base class stores from its constructor arguments. -/
structure FastAPI where
  debug : Bool
  routes : List BaseRoute
  middleware : List Middleware
  exception_handlers : ExceptionHandlers
  on_startup : List Handler
  on_shutdown : List Handler
  lifespan : Option Lifespan
  extra : Kwargs
deriving DecidableEq

/-- The Starlette base-class constructor. It is external to this repository,
so it is modelled abstractly as recording the received arguments, each `None`
argument collapsing to the base class's empty default. -/
def Starlette.init (debug : Bool) (routes : Option (List BaseRoute))
    (middleware : Option (List Middleware))
    (exception_handlers : Option ExceptionHandlers)
    (on_startup : Option (List Handler)) (on_shutdown : Option (List Handler))
    (lifespan : Option Lifespan) (extra : Kwargs) : FastAPI :=
  { debug := debug
    routes := routes.getD []
    middleware := middleware.getD []
    exception_handlers := exception_handlers.getD []
    on_startup := on_startup.getD []
    on_shutdown := on_shutdown.getD []
    lifespan := lifespan
    extra := extra }

/-- The `FastAPI.__init__` method (src/applications.py lines 24-60): forwards
every argument, including the extra keyword arguments, unmodified to the
base-class constructor and does nothing else. -/
def FastAPI.init (debug : Bool) (routes : Option (List BaseRoute))
    (middleware : Option (List Middleware))
    (exception_handlers : Option ExceptionHandlers)
    (on_startup : Option (List Handler)) (on_shutdown : Option (List Handler))
    (lifespan : Option Lifespan) (extra : Kwargs) : FastAPI :=
  Starlette.init debug routes middleware exception_handlers on_startup
    on_shutdown lifespan extra

/-- The dictionary shape returned by `FastAPI.openapi`: the fixed `openapi`
version string, the `info` sub-dictionary, and the `paths` sub-dictionary. -/
structure OpenAPISchema where
  openapi : String
  info_title : String
  info_version : String
  paths : List (String × Nat)
deriving DecidableEq

/-- The `FastAPI.openapi` method (src/applications.py lines 62-72): when the
routes list is empty (Python truthiness of `not self.routes`) it returns the
stub schema, and otherwise it falls through to returning the same stub
schema. -/
def FastAPI.openapi (app : FastAPI) : OpenAPISchema :=
  if app.routes.isEmpty then
    { openapi := "3.1.0", info_title := "FastAPI", info_version := "0.1.0",
      paths := [] }
  else
    { openapi := "3.1.0", info_title := "FastAPI", info_version := "0.1.0",
      paths := [] }

/-- The Python expression `methods or ["GET"]` from src/applications.py line
97: both `None` and the empty list are falsy, so each yields `["GET"]`. -/
def methodsOrGet (methods : Option (List String)) : List String :=
  match methods with
  | none => ["GET"]
  | some ms => if ms.isEmpty then ["GET"] else ms

/-- The `FastAPI.add_api_route` method (src/applications.py lines 74-101):
builds an `APIRoute` from the arguments, defaulting `methods` as the source
does, and appends it to the routes list. -/
def FastAPI.add_api_route (app : FastAPI) (path : String) (endpoint : Endpoint)
    (methods : Option (List String)) (response_model : Option ResponseModel)
    (kwargs : Kwargs) : FastAPI :=
  let route : APIRoute :=
    { path := path
      endpoint := endpoint
      methods := methodsOrGet methods
      response_model := response_model
      kwargs := kwargs }
  { app with routes := app.routes ++ [BaseRoute.api route] }

/-- Modelled from the spec: `fastapi.routing.APIRouter` is imported by
`src/applications.py` but its defining module is not under `src/`. Following
the spec it is a router carrying a routes list. -/
structure APIRouter where
  routes : List BaseRoute
deriving DecidableEq

/-- The body of the `include_router` loop (src/applications.py lines 113-115)
for a single route: an `APIRoute` has the prefix string prepended to its
`path` field in place, any other route is left untouched. -/
def applyPre (pre : String) (r : BaseRoute) : BaseRoute :=
  match r with
  | BaseRoute.api a => BaseRoute.api { a with path := pre ++ a.path }
  | BaseRoute.other d => BaseRoute.other d

/-- The `FastAPI.include_router` method (src/applications.py lines 103-116):
iterates over the router's routes in order, rewriting each `APIRoute`'s path
in place and appending each (possibly rewritten) route object to the
application's routes. Because the Python loop mutates the router's own route
objects, the embedding returns both the updated application and the updated
router; the extra keyword arguments are accepted and ignored, as in the
source. -/
def FastAPI.include_router (app : FastAPI) (router : APIRouter) (pre : String)
    (_kwargs : Kwargs) : FastAPI × APIRouter :=
  let rewritten := router.routes.map (applyPre pre)
  ({ app with routes := app.routes ++ rewritten }, { routes := rewritten })

/-- A small concrete application used by witness theorems. -/
def demoApp : FastAPI :=
  Starlette.init false none none none none none none []

/-- A small concrete router used by witness theorems. -/
def demoRouter : APIRouter :=
  { routes := [BaseRoute.other 0] }

/-- Claim C1: `openapi` returns exactly the stub dictionary for every
application state, whether the routes list is empty or not; in particular the
`paths` entry is the empty dictionary and the result does not depend on the
registered routes. -/
theorem openapi_is_stub (app : FastAPI) :
    app.openapi =
      { openapi := "3.1.0", info_title := "FastAPI", info_version := "0.1.0",
        paths := [] } := by
  unfold FastAPI.openapi
  split <;> rfl

/-- Claim C2: `add_api_route` performs only list mutation: the routes list
afterwards equals the previous routes list with exactly one new `APIRoute`
appended at the end (so every previously stored route object is unchanged),
and every other field of the application state is untouched. -/
theorem add_api_route_appends_one (app : FastAPI) (path : String)
    (endpoint : Endpoint) (methods : Option (List String))
    (response_model : Option ResponseModel) (kwargs : Kwargs) :
    (app.add_api_route path endpoint methods response_model kwargs).routes =
        app.routes ++ [BaseRoute.api
          { path := path
            endpoint := endpoint
            methods := methodsOrGet methods
            response_model := response_model
            kwargs := kwargs }] ∧
      (app.add_api_route path endpoint methods response_model kwargs).debug =
        app.debug ∧
      (app.add_api_route path endpoint methods response_model
        kwargs).middleware = app.middleware ∧
      (app.add_api_route path endpoint methods response_model
        kwargs).exception_handlers = app.exception_handlers ∧
      (app.add_api_route path endpoint methods response_model
        kwargs).on_startup = app.on_startup ∧
      (app.add_api_route path endpoint methods response_model
        kwargs).on_shutdown = app.on_shutdown ∧
      (app.add_api_route path endpoint methods response_model
        kwargs).lifespan = app.lifespan ∧
      (app.add_api_route path endpoint methods response_model kwargs).extra =
        app.extra :=
  ⟨rfl, rfl, rfl, rfl, rfl, rfl, rfl, rfl⟩

/-- Claim C3: `include_router` appends every element of the router's routes to
the application's routes, preserving the router's original order, and each
route that is an `APIRoute` afterwards has path equal to the prefix
concatenated with its previous path. -/
theorem include_router_appends_all (app : FastAPI) (router : APIRouter)
    (pre : String) (kwargs : Kwargs) :
    (app.include_router router pre kwargs).1.routes =
        app.routes ++ router.routes.map (applyPre pre) ∧
      ∀ a : APIRoute,
        applyPre pre (BaseRoute.api a) =
          BaseRoute.api { a with path := pre ++ a.path } :=
  ⟨rfl, fun _ => rfl⟩

/-- Claim C4: `FastAPI.__init__` is a pure pass-through to the base class:
the resulting state equals the one produced by the base-class constructor on
the same arguments. -/
theorem init_is_pass_through (debug : Bool) (routes : Option (List BaseRoute))
    (middleware : Option (List Middleware))
    (exception_handlers : Option ExceptionHandlers)
    (on_startup : Option (List Handler)) (on_shutdown : Option (List Handler))
    (lifespan : Option Lifespan) (extra : Kwargs) :
    FastAPI.init debug routes middleware exception_handlers on_startup
        on_shutdown lifespan extra =
      Starlette.init debug routes middleware exception_handlers on_startup
        on_shutdown lifespan extra :=
  rfl

/-- Claim C5: both mutating operations only grow the routes list: the routes
list before the call is a prefix of the routes list after the call, for
`add_api_route` and for `include_router` alike. -/
theorem routes_only_grow (app : FastAPI) (router : APIRouter) (pre : String)
    (path : String) (endpoint : Endpoint) (methods : Option (List String))
    (response_model : Option ResponseModel) (kw kw' : Kwargs) :
    (∃ added,
        (app.add_api_route path endpoint methods response_model kw).routes =
          app.routes ++ added) ∧
      ∃ added,
        (app.include_router router pre kw').1.routes = app.routes ++ added :=
  ⟨⟨_, rfl⟩, ⟨_, rfl⟩⟩

/-- Claim C7: for `add_api_route`, a `methods` argument of `None` or of the
empty list yields a route whose methods are exactly `["GET"]`; a non-empty
methods list is used exactly as given; and path, endpoint and response_model
are passed through to the new `APIRoute` unchanged. -/
theorem add_api_route_methods_default (app : FastAPI) (path : String)
    (endpoint : Endpoint) (response_model : Option ResponseModel)
    (kwargs : Kwargs) :
    (app.add_api_route path endpoint none response_model kwargs).routes.getLast?
        = some (BaseRoute.api
          { path := path
            endpoint := endpoint
            methods := ["GET"]
            response_model := response_model
            kwargs := kwargs }) ∧
      (app.add_api_route path endpoint (some []) response_model
          kwargs).routes.getLast? = some (BaseRoute.api
        { path := path
          endpoint := endpoint
          methods := ["GET"]
          response_model := response_model
          kwargs := kwargs }) ∧
      ∀ (m : String) (rest : List String),
        (app.add_api_route path endpoint (some (m :: rest)) response_model
            kwargs).routes.getLast? = some (BaseRoute.api
          { path := path
            endpoint := endpoint
            methods := m :: rest
            response_model := response_model
            kwargs := kwargs }) := by
  refine ⟨?_, ?_, fun m rest => ?_⟩ <;>
    simp [FastAPI.add_api_route, methodsOrGet]

/-- Claim C8: `include_router` mutates the argument router itself: afterwards
every `APIRoute` held in the router has its path rewritten to the prefix
concatenated with its old path, the objects appended to the application's
routes are exactly the router's rewritten routes, and including the same
(mutated) router a second time with the same prefix rewrites paths to the
prefix concatenated twice with the original path — the operation is not
idempotent in its effect on the router. -/
theorem include_router_mutates_router (app : FastAPI) (router : APIRouter)
    (pre : String) (kw kw' : Kwargs) :
    (app.include_router router pre kw).2.routes =
        router.routes.map (applyPre pre) ∧
      (app.include_router router pre kw).1.routes =
        app.routes ++ (app.include_router router pre kw).2.routes ∧
      ((app.include_router router pre kw).1.include_router
          (app.include_router router pre kw).2 pre kw').2.routes =
        router.routes.map (fun r => applyPre pre (applyPre pre r)) ∧
      ∀ a : APIRoute,
        applyPre pre (applyPre pre (BaseRoute.api a)) =
          BaseRoute.api { a with path := pre ++ (pre ++ a.path) } := by
  refine ⟨rfl, rfl, ?_, fun a => rfl⟩
  simp [FastAPI.include_router, List.map_map, Function.comp]

/-- Claim C9: every route of the router that is not an `APIRoute` is left
completely unchanged by the loop body and is appended to the application's
routes as is: its path is not prefixed even when a non-empty prefix is
supplied. -/
theorem include_router_non_api_unchanged (app : FastAPI) (router : APIRouter)
    (pre : String) (kwargs : Kwargs) (d : Nat)
    (h : BaseRoute.other d ∈ router.routes) :
    applyPre pre (BaseRoute.other d) = BaseRoute.other d ∧
      BaseRoute.other d ∈ (app.include_router router pre kwargs).1.routes := by
  refine ⟨rfl, ?_⟩
  simp only [FastAPI.include_router, List.mem_append, List.mem_map]
  exact Or.inr ⟨BaseRoute.other d, h, rfl⟩

/-- Witness for claim C9 at a concrete input: a router holding one
non-`APIRoute` route, included with the non-empty prefix "/api". -/
theorem include_router_non_api_unchanged_witness :
    BaseRoute.other 0 ∈ demoRouter.routes ∧
      (applyPre "/api" (BaseRoute.other 0) = BaseRoute.other 0 ∧
        BaseRoute.other 0 ∈
          (demoApp.include_router demoRouter "/api" []).1.routes) :=
  ⟨by simp [demoRouter],
    include_router_non_api_unchanged demoApp demoRouter "/api" [] 0
      (by simp [demoRouter])⟩
